import Mathlib

/-!
Verification of the PriMag sales-management business logic
(`sales/models.py`, `sales/management/commands/generate_revenue_records.py`).

Monetary fields (`DecimalField`) are embedded as exact rationals `ℚ`,
Django `IntegerField` as `ℤ`, dates as a `Date` structure with Gregorian
calendar arithmetic.  Model writes (`save`) become pure state-transforming
functions; the database tables touched by the revenue aggregation become
explicit `List` states.
-/

/-- A calendar date, as in the Python `datetime.date` type. -/
structure Date where
  year : ℤ
  month : ℕ
  day : ℕ
deriving DecidableEq, Repr

/-- Gregorian leap-year rule (as implemented by the Python `calendar` and `datetime` modules). -/
def isLeap (y : ℤ) : Bool :=
  (y % 4 == 0 && y % 100 != 0) || y % 400 == 0

/-- Number of days in a Gregorian calendar month. -/
def daysInMonth (y : ℤ) (m : ℕ) : ℕ :=
  if m = 2 then (if isLeap y then 29 else 28)
  else if m = 4 ∨ m = 6 ∨ m = 9 ∨ m = 11 then 30
  else 31

/-- A structurally valid Gregorian date. -/
def Date.valid (d : Date) : Prop :=
  1 ≤ d.month ∧ d.month ≤ 12 ∧ 1 ≤ d.day ∧ d.day ≤ daysInMonth d.year d.month

instance (d : Date) : Decidable d.valid := by
  unfold Date.valid; infer_instance

/-- The previous calendar day: `d - timedelta(days=1)` for a valid date `d`. -/
def Date.predDay (d : Date) : Date :=
  if 1 < d.day then { d with day := d.day - 1 }
  else if 1 < d.month then { year := d.year, month := d.month - 1, day := daysInMonth d.year (d.month - 1) }
  else { year := d.year - 1, month := 12, day := 31 }

/-- Lexicographic order on dates (`date.__le__`). -/
def Date.le (a b : Date) : Bool :=
  decide (a.year < b.year ∨ (a.year = b.year ∧
    (a.month < b.month ∨ (a.month = b.month ∧ a.day ≤ b.day))))

/-- First day of the month of `sale_date`: `sale_date.replace(day=1)`
(`log_sale_changes`, `generate_revenue_records.py`). -/
def periodStart (d : Date) : Date :=
  { d with day := 1 }

/-- Last day of the month of `sale_date`, exactly as computed in
`log_sale_changes` / `generate_revenue_records.py`:
first day of next month (with December rolling over the year) minus one day. -/
def periodEnd (d : Date) : Date :=
  if d.month = 12 then
    Date.predDay { year := d.year + 1, month := 1, day := 1 }
  else
    Date.predDay { year := d.year, month := d.month + 1, day := 1 }

/-- The fields of `sales.models.Transaction` involved in `Transaction.save`.
`DecimalField`s are exact rationals.  On a fresh record the field defaults are
`tax_amount = 0`, `gst_amount = 0` (model definition: `models.py` lines 112-135). -/
structure Transaction where
  amount : ℚ
  is_taxable : Bool
  tax_percentage : ℚ
  tax_amount : ℚ
  gst_applicable : Bool
  gst_percentage : ℚ
  gst_amount : ℚ
  total_amount : ℚ
deriving DecidableEq, Repr

/-- Embedding of `Transaction.save` (`models.py` lines 145-154): recompute `tax_amount`
only when `is_taxable`, recompute `gst_amount` only when `gst_applicable`,
then always set `total_amount = amount + tax_amount + gst_amount`. -/
def Transaction.save (t : Transaction) : Transaction :=
  let t1 := if t.is_taxable then { t with tax_amount := t.amount * t.tax_percentage / 100 } else t
  let t2 := if t1.gst_applicable then { t1 with gst_amount := t1.amount * t1.gst_percentage / 100 } else t1
  { t2 with total_amount := t2.amount + t2.tax_amount + t2.gst_amount }

/-- A `Transaction` in which every field not under test is zero / false. -/
def txBase : Transaction :=
  { amount := 0, is_taxable := false, tax_percentage := 0, tax_amount := 0
    gst_applicable := false, gst_percentage := 0, gst_amount := 0, total_amount := 0 }

theorem transaction_save_amount (t : Transaction) : t.save.amount = t.amount := by
  unfold Transaction.save
  cases h1 : t.is_taxable <;> cases h2 : t.gst_applicable <;> simp [h1, h2]

theorem transaction_save_flags (t : Transaction) :
    t.save.is_taxable = t.is_taxable ∧ t.save.gst_applicable = t.gst_applicable := by
  unfold Transaction.save
  cases h1 : t.is_taxable <;> cases h2 : t.gst_applicable <;> simp [h1, h2]

/-- The status values of `sales.models.Sale.SALE_STATUS`. -/
inductive SaleStatus
  | draft
  | confirmed
  | dispatched
  | delivered
  | cancelled
  | returned
deriving DecidableEq, Repr

/-- The fields of `sales.models.Sale` involved in the verified behaviour
(`models.py` lines 472-531).  `customer` is the nullable foreign key,
embedded as the customer id; the four amount fields all have field
default `0` and are never touched by `Sale.save`. -/
structure Sale where
  sale_number : String
  customer : Option ℕ
  sale_date : Date
  status : SaleStatus
  subtotal : ℚ
  total_tax : ℚ
  total_gst : ℚ
  total_amount : ℚ
deriving DecidableEq, Repr

/-- Decimal rendering of `n`, zero-padded on the left to at least `w`
digits, like the Python format specifier 05d. -/
def padNum (w : ℕ) (n : ℕ) : String :=
  let s := Nat.repr n
  String.mk (List.replicate (w - s.length) '0') ++ s

/-- Rendering of a date in the strftime format YYYYMMDD used by `Sale.save`. -/
def dateYYYYMMDD (d : Date) : String :=
  padNum 4 d.year.toNat ++ padNum 2 d.month ++ padNum 2 d.day

/-- Embedding of `Sale.save` (`models.py` lines 520-531).  `now` is the current calendar
date and `existingCreated` the `created_at` dates of the Sale rows already in
the database, so that `(existingCreated.filter (· == now)).length` embeds
`Sale.objects.filter(created_at__date=datetime.date.today()).count()`.
When `sale_number` is non-empty the record is written unchanged. -/
def Sale.save (now : Date) (existingCreated : List Date) (s : Sale) : Sale :=
  if s.sale_number = "" then
    { s with sale_number :=
        "SAL-" ++ dateYYYYMMDD now ++ "-"
          ++ padNum 5 ((existingCreated.filter (· == now)).length + 1) }
  else s

/-- The fields of `sales.models.SaleItem` involved in `SaleItem.save`
(`models.py` lines 534-569).  `quantity` is a Django `IntegerField`. -/
structure SaleItem where
  quantity : ℤ
  unit_price : ℚ
  tax_percentage : ℚ
  tax_amount : ℚ
  gst_percentage : ℚ
  gst_amount : ℚ
  line_total : ℚ
deriving DecidableEq, Repr

/-- Embedding of `SaleItem.save` (`models.py` lines 558-569): always recompute
`tax_amount`, `gst_amount` and `line_total` from `unit_price`, `quantity`
and the two percentage fields. -/
def SaleItem.save (s : SaleItem) : SaleItem :=
  let ta := (s.unit_price * (s.quantity : ℚ) * s.tax_percentage) / 100
  let ga := (s.unit_price * (s.quantity : ℚ) * s.gst_percentage) / 100
  { s with
      tax_amount := ta
      gst_amount := ga
      line_total := s.unit_price * (s.quantity : ℚ) + ta + ga }

/-- The fields of `sales.models.Revenue` the aggregation reads or writes
(`models.py` lines 185-216).  `unique_together = (customer, frequency,
start_date)` is the row key.  Audit-only columns (`created_at`,
`created_by`) play no part in any verified claim and are omitted. -/
structure Revenue where
  customer : ℕ
  frequency : String
  start_date : Date
  end_date : Date
  total_revenue : ℚ
  total_transactions : ℕ
  total_tax : ℚ
  total_gst : ℚ
deriving DecidableEq, Repr

/-- The status filter of both aggregation paths: status confirmed,
dispatched or delivered. -/
def statusQualifies (st : SaleStatus) : Bool :=
  match st with
  | .confirmed | .dispatched | .delivered => true
  | _ => false

/-- The ORM filter used by both aggregation paths:
`Sale.objects.filter(customer=..., sale_date__gte=start, sale_date__lte=end,
status__in=[confirmed, dispatched, delivered])`. -/
def periodSalesList (db : List Sale) (cid : ℕ) (start stop : Date) : List Sale :=
  db.filter (fun s =>
    s.customer == some cid && Date.le start s.sale_date
      && Date.le s.sale_date stop && statusQualifies s.status)

/-- Does Revenue row `r` match the `get_or_create` key
`(customer=cid, frequency=monthly, start_date=start)`? -/
def revKey (cid : ℕ) (start : Date) (r : Revenue) : Bool :=
  r.customer == cid && r.frequency == "monthly" && r.start_date == start

/-- Writing the four recomputed totals of the qualifying Sales `qs` into a
Revenue row (`revenue.total_revenue = ...; ...; revenue.save()`). -/
def aggUpdate (qs : List Sale) (r : Revenue) : Revenue :=
  { r with
      total_revenue := (qs.map Sale.total_amount).sum
      total_transactions := qs.length
      total_tax := (qs.map Sale.total_tax).sum
      total_gst := (qs.map Sale.total_gst).sum }

/-- The shared aggregation kernel of `log_sale_changes` (`models.py` lines
665-693) and `generate_revenue_records.Command.handle` (lines 46-73):
`get_or_create` the Revenue row keyed by `(customer, monthly, start_date)`
(with `end_date` and zero totals as create-defaults), then recompute the four
totals from the qualifying Sales of the period and save.  `Sum(...) or 0` is the
sum of the empty list when no Sale qualifies.  The row key is unique in the
table (`unique_together`), so updating every key-matching row coincides with
updating the row `get_or_create` returned. -/
def upsertRevenue (db : List Sale) (cid : ℕ) (start stop : Date)
    (table : List Revenue) : List Revenue :=
  let qs := periodSalesList db cid start stop
  match table.find? (revKey cid start) with
  | some _ => table.map (fun r => if revKey cid start r then aggUpdate qs r else r)
  | none =>
      table ++ [aggUpdate qs
                  { customer := cid, frequency := "monthly",
                    start_date := start, end_date := stop,
                    total_revenue := 0, total_transactions := 0,
                    total_tax := 0, total_gst := 0 }]

/-- The revenue-aggregation part of the `post_save` signal handler
`log_sale_changes` (`models.py` lines 650-693): it runs only when
`instance.customer` is set, and then upserts the Revenue row of the
calendar month of `instance.sale_date`. -/
def log_sale_changes_revenue (db : List Sale) (inst : Sale)
    (table : List Revenue) : List Revenue :=
  match inst.customer with
  | none => table
  | some cid =>
      upsertRevenue db cid (periodStart inst.sale_date)
        (periodEnd inst.sale_date) table

/-- The loop body of `generate_revenue_records.Command.handle` (lines
32-88): walk the status-qualifying Sales in a fixed deterministic order,
and for each `(customer.id, start_date)` key not yet processed, upsert its
Revenue row.  A Sale whose `customer` is NULL makes `customer.id` raise
`AttributeError`, which the command does not catch. -/
def bulkGo (db : List Sale) :
    List Sale → List Revenue → List (ℕ × Date) → Except String (List Revenue)
  | [], table, _ => .ok table
  | s :: rest, table, processed =>
      match s.customer with
      | none => .error "AttributeError: NoneType object has no attribute id"
      | some cid =>
          let start := periodStart s.sale_date
          if (cid, start) ∈ processed then
            bulkGo db rest table processed
          else
            bulkGo db rest
              (upsertRevenue db cid start (periodEnd s.sale_date) table)
              ((cid, start) :: processed)

/-- Embedding of `generate_revenue_records.Command.handle` (lines 15-97): iterate over
`Sale.objects.filter(status__in=[confirmed, dispatched, delivered])`
in the deterministic `order_by` (customer, sale_date) order — embedded
here as the (fixed) order of `db` — deduplicating `(customer, month)` keys.
The iteration order does not affect the contents of the resulting table and is
identical between two runs over unchanged data. -/
def bulkRun (db : List Sale) (table : List Revenue) : Except String (List Revenue) :=
  bulkGo db (db.filter (fun s => statusQualifies s.status)) table []

/-- Outcome of one guarded side-effect body: what propagates to the caller
of the triggering `save`, and the lines written to the operational log. -/
structure GuardOutcome where
  result : Except String Unit
  printed : List String
deriving Repr

/-- The `try/except` wrapper of `AuditLog.log_action` (`models.py` lines
352-380): the body (diff computation plus `AuditLog.objects.create`) either
succeeds or raises `e`; any exception is caught and reported with
`print(f"Error logging audit: {str(e)}")`, and nothing propagates. -/
def log_action_guard (body : Except String Unit) : GuardOutcome :=
  match body with
  | .ok () => { result := .ok (), printed := [] }
  | .error e => { result := .ok (), printed := ["Error logging audit: " ++ e] }

/-- The `try/except` wrapper around the revenue aggregation in
`log_sale_changes` (`models.py` lines 652-696): any exception from the body
is swallowed by `except Exception: pass` — nothing propagates and nothing
is written to any log. -/
def sale_revenue_guard (body : Except String Unit) : GuardOutcome :=
  match body with
  | .ok () => { result := .ok (), printed := [] }
  | .error _ => { result := .ok (), printed := [] }

/-! ## Claims about `Transaction.save` -/

/-- A previously taxable Transaction whose flag has been switched off:
`tax_amount = 50` is still stored while `is_taxable = false`. -/
def c1_tx : Transaction :=
  { txBase with amount := 100, is_taxable := false, tax_percentage := 5, tax_amount := 50,
                gst_applicable := false, gst_percentage := 12, gst_amount := 7 }

/-- **C1** (counterexample).  `Transaction.save` does NOT force
`tax_amount` to zero when `is_taxable` is false: on a record storing
`tax_amount = 50` with `is_taxable = false`, the stored `tax_amount` after
the write is still `50`, and likewise `gst_amount` stays `7` with
`gst_applicable = false`. -/
theorem C1_counterexample :
    c1_tx.is_taxable = false ∧ c1_tx.gst_applicable = false ∧
    c1_tx.save.tax_amount = 50 ∧ c1_tx.save.gst_amount = 7 := by
  refine ⟨rfl, rfl, ?_, ?_⟩ <;> decide

/-- **C1** (amended).  When `is_taxable` is false, `Transaction.save`
leaves `tax_amount` unchanged (so it is zero only when it was already zero,
e.g. the field default on a fresh record); likewise `gst_applicable = false`
leaves `gst_amount` unchanged. -/
theorem C1_flag_false_leaves_amount (t : Transaction) :
    (t.is_taxable = false → t.save.tax_amount = t.tax_amount) ∧
    (t.gst_applicable = false → t.save.gst_amount = t.gst_amount) := by
  unfold Transaction.save
  cases h1 : t.is_taxable <;> cases h2 : t.gst_applicable <;> simp [h1, h2]

/-- Witness for C1 at the concrete record `c1_tx`. -/
theorem C1_witness :
    c1_tx.save.tax_amount = c1_tx.tax_amount ∧ c1_tx.save.gst_amount = c1_tx.gst_amount :=
  ⟨(C1_flag_false_leaves_amount c1_tx).1 rfl, (C1_flag_false_leaves_amount c1_tx).2 rfl⟩

/-- **C2**.  After every `Transaction.save`,
`total_amount = amount + tax_amount + gst_amount` holds unconditionally for
the stored (post-write) values; when `is_taxable` is true the stored
`tax_amount` equals `amount * tax_percentage / 100`, and when
`gst_applicable` is true the stored `gst_amount` equals
`amount * gst_percentage / 100`, in exact arithmetic. -/
theorem C2_save_computes_totals (t : Transaction) :
    t.save.total_amount = t.save.amount + t.save.tax_amount + t.save.gst_amount ∧
    (t.is_taxable = true → t.save.tax_amount = t.amount * t.tax_percentage / 100) ∧
    (t.gst_applicable = true → t.save.gst_amount = t.amount * t.gst_percentage / 100) := by
  unfold Transaction.save
  cases h1 : t.is_taxable <;> cases h2 : t.gst_applicable <;> simp [h1, h2]

/-- The worked example of the spec: a fresh record (field defaults
`tax_amount = 0`, `gst_amount = 0`) with `amount = 1000`,
`tax_percentage = 5`, `is_taxable = true`, `gst_applicable = false`. -/
def c2_tx : Transaction :=
  { txBase with amount := 1000, is_taxable := true, tax_percentage := 5 }

/-- Witness for C2: the worked example yields `tax_amount = 50`,
`gst_amount = 0`, `total_amount = 1050`. -/
theorem C2_witness :
    c2_tx.save.tax_amount = 50 ∧ c2_tx.save.gst_amount = 0 ∧
    c2_tx.save.total_amount = 1050 := by
  have h := C2_save_computes_totals c2_tx
  refine ⟨(h.2.1 rfl).trans (by norm_num [c2_tx, txBase]), ?_, ?_⟩
  · show c2_tx.save.gst_amount = 0
    norm_num [Transaction.save, c2_tx, txBase]
  · refine h.1.trans ?_
    norm_num [Transaction.save, c2_tx, txBase]

/-! ## Claims about `SaleItem.save` -/

/-- **C9**.  After every `SaleItem.save`,
`line_total = unit_price * quantity + tax_amount + gst_amount` holds for the
stored values, and `tax_amount`, `gst_amount` and the pre-tax component
`unit_price * quantity` all scale linearly in `quantity`: doubling
`quantity` with the same `unit_price` and percentages doubles each. -/
theorem C9_saleitem_line_total (s : SaleItem) :
    s.save.line_total
        = s.save.unit_price * (s.save.quantity : ℚ) + s.save.tax_amount + s.save.gst_amount ∧
    ({ s with quantity := 2 * s.quantity } : SaleItem).save.tax_amount
        = 2 * s.save.tax_amount ∧
    ({ s with quantity := 2 * s.quantity } : SaleItem).save.gst_amount
        = 2 * s.save.gst_amount ∧
    ({ s with quantity := 2 * s.quantity } : SaleItem).save.unit_price
          * (({ s with quantity := 2 * s.quantity } : SaleItem).save.quantity : ℚ)
        = 2 * (s.save.unit_price * (s.save.quantity : ℚ)) := by
  unfold SaleItem.save
  refine ⟨by ring, ?_, ?_, ?_⟩
  · simp only []
    push_cast
    ring
  · simp only []
    push_cast
    ring
  · simp only []
    push_cast
    ring

/-! ## Claims about the side-effect failure guards -/

/-- **C8** (counterexample).  An exception raised inside the revenue
aggregation of `log_sale_changes` is caught (nothing propagates to the
caller) but NOTHING is written to any operational log: the claim that every
such caught exception is reported is false. -/
theorem C8_counterexample :
    (sale_revenue_guard (.error "database unavailable")).result = .ok () ∧
    (sale_revenue_guard (.error "database unavailable")).printed = [] :=
  ⟨rfl, rfl⟩

/-- **C8** (amended).  Exceptions raised inside the audit-logging or
revenue-aggregation side effects never propagate to the caller of the
triggering write; audit-logging exceptions are reported to the operational
log (`print("Error logging audit: ...")`), but revenue-aggregation
exceptions in `log_sale_changes` are silently discarded without any
report. -/
theorem C8_guards_never_propagate (body : Except String Unit) :
    (log_action_guard body).result = .ok () ∧
    (sale_revenue_guard body).result = .ok () ∧
    (∀ e, body = .error e →
      (log_action_guard body).printed = ["Error logging audit: " ++ e] ∧
      (sale_revenue_guard body).printed = []) := by
  cases body <;> simp [log_action_guard, sale_revenue_guard]

/-- Witness for C8 at a concrete failing body. -/
theorem C8_witness :
    (log_action_guard (.error "boom")).result = .ok () ∧
    (log_action_guard (.error "boom")).printed = ["Error logging audit: boom"] ∧
    (sale_revenue_guard (.error "boom")).result = .ok () ∧
    (sale_revenue_guard (.error "boom")).printed = [] := by
  have h := C8_guards_never_propagate (.error "boom")
  exact ⟨h.1, ((h.2.2 "boom" rfl).1).trans (by decide), h.2.1, (h.2.2 "boom" rfl).2⟩

/-! ## Claims about the revenue aggregation trigger -/

/-- **C10**.  Saving a Sale whose `customer` is NULL performs no revenue
aggregation at all: the Revenue table is left untouched by
`log_sale_changes`, whatever the status or `sale_date` of the Sale. -/
theorem C10_null_customer_no_aggregation (db : List Sale) (inst : Sale)
    (table : List Revenue) (h : inst.customer = none) :
    log_sale_changes_revenue db inst table = table := by
  unfold log_sale_changes_revenue
  rw [h]

/-- A customer-less confirmed Sale. -/
def c10_sale : Sale :=
  { sale_number := "SAL-20250314-00001", customer := none,
    sale_date := ⟨2025, 3, 14⟩, status := .confirmed,
    subtotal := 0, total_tax := 0, total_gst := 0, total_amount := 10 }

/-- An unrelated pre-existing Revenue row. -/
def c10_rev : Revenue :=
  { customer := 7, frequency := "monthly", start_date := ⟨2025, 3, 1⟩,
    end_date := ⟨2025, 3, 31⟩, total_revenue := 5, total_transactions := 1,
    total_tax := 0, total_gst := 0 }

/-- Witness for C10 at a concrete customer-less Sale. -/
theorem C10_witness :
    log_sale_changes_revenue [c10_sale] c10_sale [c10_rev] = [c10_rev] :=
  C10_null_customer_no_aggregation [c10_sale] c10_sale [c10_rev] rfl

/-! ## Claims about the aggregation period -/

/-- The `replace`/`timedelta` dance of both aggregation paths lands on the
last day of the month of `d`, for any month number in range. -/
theorem periodEnd_eq (d : Date) (h1 : 1 ≤ d.month) (h2 : d.month ≤ 12) :
    periodEnd d = ⟨d.year, d.month, daysInMonth d.year d.month⟩ := by
  unfold periodEnd Date.predDay
  by_cases h12 : d.month = 12
  · simp only [h12, if_pos rfl]
    norm_num [daysInMonth]
  · have hm : 1 < d.month + 1 := by omega
    simp only [h12, if_neg h12]
    norm_num [hm]

/-- **C6**.  For every structurally valid `sale_date`, the aggregation
period computed from it has `start_date` = the first day of the calendar
month of that date and `end_date` = the last day of that same month
(`daysInMonth` is the Gregorian rule, covering leap-year February and the
December year rollover). -/
theorem C6_period_bounds (d : Date) (h1 : 1 ≤ d.month) (h2 : d.month ≤ 12) :
    periodStart d = ⟨d.year, d.month, 1⟩ ∧
    periodEnd d = ⟨d.year, d.month, daysInMonth d.year d.month⟩ :=
  ⟨rfl, periodEnd_eq d h1 h2⟩

/-- Witness for C6: leap-year February 2024, non-leap February 2023, and a
December year rollover. -/
theorem C6_witness :
    periodEnd ⟨2024, 2, 15⟩ = ⟨2024, 2, 29⟩ ∧
    periodEnd ⟨2023, 2, 15⟩ = ⟨2023, 2, 28⟩ ∧
    periodEnd ⟨2025, 12, 31⟩ = ⟨2025, 12, 31⟩ ∧
    periodStart ⟨2024, 2, 15⟩ = ⟨2024, 2, 1⟩ := by
  have h := C6_period_bounds ⟨2024, 2, 15⟩ (by decide) (by decide)
  refine ⟨h.2.trans (by decide), by decide, by decide, h.1⟩

/-! ## Claims about sale-number generation -/

/-- **C7**.  At first save of a Sale with an empty `sale_number`, the
record receives `SAL-<YYYYMMDD>-<NNNNN>` where `<YYYYMMDD>` is the current
date and `<NNNNN>` is the 5-digit zero-padded count of Sales already
created that calendar day plus one; every subsequent save (on any later
date, whatever the table then contains) leaves `sale_number` unchanged. -/
theorem C7_sale_number_generation (now now2 : Date) (ex ex2 : List Date)
    (s : Sale) (h : s.sale_number = "") :
    (Sale.save now ex s).sale_number
        = "SAL-" ++ dateYYYYMMDD now ++ "-"
            ++ padNum 5 ((ex.filter (· == now)).length + 1) ∧
    (Sale.save now2 ex2 (Sale.save now ex s)).sale_number
        = (Sale.save now ex s).sale_number := by
  have hgen : (Sale.save now ex s).sale_number
      = "SAL-" ++ dateYYYYMMDD now ++ "-"
          ++ padNum 5 ((ex.filter (· == now)).length + 1) := by
    unfold Sale.save
    rw [if_pos h]
  refine ⟨hgen, ?_⟩
  have hne : (Sale.save now ex s).sale_number ≠ "" := by
    rw [hgen]
    intro hEq
    have hlen := congrArg String.length hEq
    rw [String.length_append, String.length_append, String.length_append] at hlen
    have h4 : ("SAL-" : String).length = 4 := rfl
    rw [h4] at hlen
    simp [String.length_empty] at hlen
  have hkeep : ∀ (n : Date) (l : List Date) (t : Sale),
      t.sale_number ≠ "" → Sale.save n l t = t := by
    intro n l t ht
    unfold Sale.save
    rw [if_neg ht]
  rw [hkeep now2 ex2 _ hne]

/-- A fresh draft Sale with no `sale_number` yet. -/
def c7_sale : Sale :=
  { sale_number := "", customer := some 1, sale_date := ⟨2025, 10, 12⟩,
    status := .draft, subtotal := 0, total_tax := 0, total_gst := 0,
    total_amount := 0 }

/-- Witness for C7: on 2025-10-12 with no prior Sale created that day the
first Sale gets `SAL-20251012-00001`; with one prior same-day Sale the next
gets `SAL-20251012-00002`; and re-saving does not regenerate. -/
theorem C7_witness :
    (Sale.save ⟨2025, 10, 12⟩ [] c7_sale).sale_number = "SAL-20251012-00001" ∧
    (Sale.save ⟨2025, 10, 12⟩ [⟨2025, 10, 12⟩] c7_sale).sale_number
        = "SAL-20251012-00002" ∧
    (Sale.save ⟨2025, 11, 1⟩ [⟨2025, 11, 1⟩]
        (Sale.save ⟨2025, 10, 12⟩ [] c7_sale)).sale_number
        = (Sale.save ⟨2025, 10, 12⟩ [] c7_sale).sale_number := by
  have ha := C7_sale_number_generation ⟨2025, 10, 12⟩ ⟨2025, 11, 1⟩ [] [⟨2025, 11, 1⟩] c7_sale rfl
  have hb := C7_sale_number_generation ⟨2025, 10, 12⟩ ⟨2025, 11, 1⟩ [⟨2025, 10, 12⟩] [] c7_sale rfl
  exact ⟨ha.1.trans (by decide), hb.1.trans (by decide), ha.2⟩

/-! ## Sale header totals (C3) -/

/-- A just-created Sale: the four header amounts sit at their field
defaults (`default=0`), since `Sale.save` assigns only `sale_number`. -/
def c3_sale : Sale :=
  { sale_number := "", customer := some 1, sale_date := ⟨2025, 10, 12⟩,
    status := .confirmed, subtotal := 0, total_tax := 0, total_gst := 0,
    total_amount := 0 }

/-- A line item of that Sale: 2 × 100.00, no tax, no GST. -/
def c3_item : SaleItem :=
  { quantity := 2, unit_price := 100, tax_percentage := 0, tax_amount := 0,
    gst_percentage := 0, gst_amount := 0, line_total := 0 }

/-- **C3** (code bug, evaluated at the failing input).  No code path
recomputes the Sale header totals from its SaleItems: `Sale.save` writes
only `sale_number` and `SaleItem.save` writes only the fields of the item itself.
After saving the Sale and its single 2 × 100.00 line item, the item write
yields `line_total = 200` while the `subtotal` of the Sale header (and
`total_amount`) remain at the field default `0` — the claimed invariant
`subtotal = Σ unit_price*quantity` fails. -/
theorem C3_headers_not_maintained :
    c3_item.save.line_total = 200 ∧
    (Sale.save ⟨2025, 10, 12⟩ [] c3_sale).subtotal = 0 ∧
    (Sale.save ⟨2025, 10, 12⟩ [] c3_sale).total_amount = 0 ∧
    (Sale.save ⟨2025, 10, 12⟩ [] c3_sale).subtotal
      ≠ c3_item.save.unit_price * (c3_item.save.quantity : ℚ) := by
  refine ⟨?_, ?_, ?_, ?_⟩
  · norm_num [SaleItem.save, c3_item]
  · norm_num [Sale.save, c3_sale]
  · norm_num [Sale.save, c3_sale]
  · norm_num [Sale.save, SaleItem.save, c3_sale, c3_item]

/-! ## Revenue aggregation correctness (C4) -/

/-- The `sale_date__gte=start, sale_date__lte=end` window for a calendar
month is exactly "same year and month", for structurally valid dates. -/
theorem inPeriod_iff_sameMonth (d e : Date) (hd1 : 1 ≤ d.month)
    (hd2 : d.month ≤ 12) (he : e.valid) :
    (Date.le (periodStart d) e && Date.le e (periodEnd d)) = true
      ↔ (e.year = d.year ∧ e.month = d.month) := by
  rw [periodEnd_eq d hd1 hd2]
  obtain ⟨he1, he2, he3, he4⟩ := he
  cases d with
  | mk dy dm dd =>
  cases e with
  | mk ey em ed =>
  simp only [periodStart, Date.le, Bool.and_eq_true, decide_eq_true_eq] at *
  constructor
  · rintro ⟨ha, hb⟩
    constructor <;> omega
  · rintro ⟨hy, hm⟩
    rw [hy, hm] at he4
    constructor <;> omega

/-- Membership in the month filter used to state C4. -/
def monthSales (db : List Sale) (cid : ℕ) (d : Date) : List Sale :=
  db.filter (fun s => s.customer == some cid
    && (s.sale_date.year == d.year && s.sale_date.month == d.month)
    && statusQualifies s.status)

/-- The ORM period filter coincides with the month filter on a database of
valid dates. -/
theorem periodSales_eq_monthSales (db : List Sale) (cid : ℕ) (d : Date)
    (hd1 : 1 ≤ d.month) (hd2 : d.month ≤ 12)
    (hdb : ∀ s ∈ db, s.sale_date.valid) :
    periodSalesList db cid (periodStart d) (periodEnd d)
      = monthSales db cid d := by
  unfold periodSalesList monthSales
  apply List.filter_congr
  intro s hs
  rw [Bool.eq_iff_iff]
  simp only [Bool.and_eq_true, beq_iff_eq]
  have h := inPeriod_iff_sameMonth d s.sale_date hd1 hd2 (hdb s hs)
  rw [Bool.and_eq_true] at h
  tauto

/-- **C4**.  After the aggregation upsert for the month of `d` runs (this is
the kernel shared by the per-sale trigger `log_sale_changes` and the bulk
command), every Revenue row carrying the key `(cid, monthly, first of
the month of d)` holds exactly the sums of `total_amount`, `total_tax`,
`total_gst` and the count over the Sales of that customer in that calendar
month whose status is confirmed, dispatched or delivered — Sales in any
other status, other months or of other customers contribute nothing. -/
theorem C4_revenue_row_totals (db : List Sale) (cid : ℕ) (d : Date)
    (table : List Revenue) (hd1 : 1 ≤ d.month) (hd2 : d.month ≤ 12)
    (hdb : ∀ s ∈ db, s.sale_date.valid) :
    ∀ r ∈ upsertRevenue db cid (periodStart d) (periodEnd d) table,
      revKey cid (periodStart d) r = true →
      r.total_revenue = ((monthSales db cid d).map Sale.total_amount).sum ∧
      r.total_tax = ((monthSales db cid d).map Sale.total_tax).sum ∧
      r.total_gst = ((monthSales db cid d).map Sale.total_gst).sum ∧
      r.total_transactions = (monthSales db cid d).length := by
  intro r hr hkey
  rw [upsertRevenue, periodSales_eq_monthSales db cid d hd1 hd2 hdb] at hr
  cases hf : table.find? (revKey cid (periodStart d)) with
  | some r0 =>
      rw [hf] at hr
      simp only [List.mem_map] at hr
      obtain ⟨r1, _, hr1⟩ := hr
      by_cases hk1 : revKey cid (periodStart d) r1 = true
      · rw [if_pos hk1] at hr1
        subst hr1
        simp [aggUpdate]
      · rw [if_neg hk1] at hr1
        subst hr1
        exact absurd hkey hk1
  | none =>
      rw [hf] at hr
      rw [List.mem_append] at hr
      cases hr with
      | inl hin =>
          have hnone := List.find?_eq_none.mp hf r hin
          exact absurd hkey hnone
      | inr hsing =>
          rw [List.mem_singleton] at hsing
          subst hsing
          simp [aggUpdate]

/-- Shorthand for building concrete Sales in witnesses. -/
def mkSale (cid : Option ℕ) (dt : Date) (st : SaleStatus) (amt tax gst : ℚ) : Sale :=
  { sale_number := "SAL-X", customer := cid, sale_date := dt, status := st,
    subtotal := 0, total_tax := tax, total_gst := gst, total_amount := amt }

def c4_d : Date := ⟨2025, 10, 5⟩

/-- Five Sales: two qualify for customer 1 in October 2025; one is excluded
by status (draft), one by customer, one by month. -/
def c4_db : List Sale :=
  [ mkSale (some 1) ⟨2025, 10, 3⟩ .confirmed 100 5 2,
    mkSale (some 1) ⟨2025, 10, 20⟩ .draft 999 9 9,
    mkSale (some 2) ⟨2025, 10, 7⟩ .delivered 50 1 1,
    mkSale (some 1) ⟨2025, 9, 30⟩ .delivered 70 2 2,
    mkSale (some 1) ⟨2025, 10, 31⟩ .dispatched 40 3 1 ]

/-- The single Revenue row the aggregation writes on an empty table. -/
def c4_row : Revenue :=
  aggUpdate (periodSalesList c4_db 1 (periodStart c4_d) (periodEnd c4_d))
    { customer := 1, frequency := "monthly", start_date := periodStart c4_d,
      end_date := periodEnd c4_d, total_revenue := 0, total_transactions := 0,
      total_tax := 0, total_gst := 0 }

/-- Witness for C4: on the concrete October 2025 database the written row
holds the month sums — and they evaluate to 140 / 8 / 3 over 2 Sales,
excluding the draft Sale, the other customer and the September Sale. -/
theorem C4_witness :
    c4_row.total_revenue = ((monthSales c4_db 1 c4_d).map Sale.total_amount).sum ∧
    c4_row.total_tax = ((monthSales c4_db 1 c4_d).map Sale.total_tax).sum ∧
    c4_row.total_gst = ((monthSales c4_db 1 c4_d).map Sale.total_gst).sum ∧
    c4_row.total_transactions = (monthSales c4_db 1 c4_d).length ∧
    c4_row.total_revenue = 140 ∧ c4_row.total_tax = 8 ∧
    c4_row.total_gst = 3 ∧ c4_row.total_transactions = 2 := by
  have hmem : c4_row ∈ upsertRevenue c4_db 1 (periodStart c4_d) (periodEnd c4_d) [] :=
    List.mem_singleton.mpr rfl
  have h := C4_revenue_row_totals c4_db 1 c4_d [] (by decide) (by decide)
    (by decide) c4_row hmem (by decide)
  have hm : monthSales c4_db 1 c4_d
      = [mkSale (some 1) ⟨2025, 10, 3⟩ .confirmed 100 5 2,
         mkSale (some 1) ⟨2025, 10, 31⟩ .dispatched 40 3 1] := by decide
  refine ⟨h.1, h.2.1, h.2.2.1, h.2.2.2, ?_, ?_, ?_, ?_⟩
  · rw [h.1, hm]; norm_num [mkSale]
  · rw [h.2.1, hm]; norm_num [mkSale]
  · rw [h.2.2.1, hm]; norm_num [mkSale]
  · rw [h.2.2.2, hm]; rfl

/-! ## Idempotence of the bulk aggregation (C5) -/

/-- Lemma: `periodEnd` reads only the year and the month, so the month end derived
from a sale date and from the corresponding period start agree. -/
theorem periodEnd_periodStart (d : Date) : periodEnd (periodStart d) = periodEnd d := rfl

/-- Lemma: `aggUpdate` never touches the key fields. -/
theorem revKey_aggUpdate (qs : List Sale) (cid : ℕ) (start : Date) (r : Revenue) :
    revKey cid start (aggUpdate qs r) = revKey cid start r := rfl

/-- Re-applying the same recomputation is the identity. -/
theorem aggUpdate_idem (qs : List Sale) (r : Revenue) :
    aggUpdate qs (aggUpdate qs r) = aggUpdate qs r := rfl

/-- A row cannot carry two different `get_or_create` keys. -/
theorem revKey_inj {cid cid' : ℕ} {start start' : Date} {r : Revenue}
    (h : revKey cid start r = true) (h' : revKey cid' start' r = true) :
    cid = cid' ∧ start = start' := by
  unfold revKey at h h'
  simp only [Bool.and_eq_true, beq_iff_eq] at h h'
  exact ⟨h.1.1.symm.trans h'.1.1, h.2.symm.trans h'.2⟩

/-- The Revenue table is settled for the key `(cid, monthly, start)`:
some row carries the key, and every row carrying it already holds the
recomputed totals of its month, so the aggregation write is the
identity on it. -/
def keyGood (db : List Sale) (cid : ℕ) (start : Date) (table : List Revenue) : Prop :=
  (∃ r ∈ table, revKey cid start r = true) ∧
  ∀ r ∈ table, revKey cid start r = true →
    aggUpdate (periodSalesList db cid start (periodEnd start)) r = r

/-- After an aggregation upsert, its own key is settled. -/
theorem upsert_keyGood (db : List Sale) (cid : ℕ) (start : Date)
    (table : List Revenue) :
    keyGood db cid start (upsertRevenue db cid start (periodEnd start) table) := by
  unfold upsertRevenue keyGood
  cases hf : table.find? (revKey cid start) with
  | some r0 =>
      have hr0mem : r0 ∈ table := List.mem_of_find?_eq_some hf
      have hr0key : revKey cid start r0 = true := List.find?_some hf
      constructor
      · refine ⟨aggUpdate (periodSalesList db cid start (periodEnd start)) r0, ?_, ?_⟩
        · refine List.mem_map.mpr ⟨r0, hr0mem, ?_⟩
          rw [if_pos hr0key]
        · rw [revKey_aggUpdate]
          exact hr0key
      · intro r hr hk
        obtain ⟨r1, hr1mem, hr1⟩ := List.mem_map.mp hr
        by_cases hk1 : revKey cid start r1 = true
        · rw [if_pos hk1] at hr1
          rw [← hr1]
          exact aggUpdate_idem _ r1
        · rw [if_neg hk1] at hr1
          rw [← hr1] at hk
          exact absurd hk hk1
  | none =>
      constructor
      · refine ⟨aggUpdate (periodSalesList db cid start (periodEnd start))
            { customer := cid, frequency := "monthly", start_date := start,
              end_date := periodEnd start, total_revenue := 0,
              total_transactions := 0, total_tax := 0, total_gst := 0 }, ?_, ?_⟩
        · exact List.mem_append.mpr (Or.inr (List.mem_singleton.mpr rfl))
        · rw [revKey_aggUpdate]
          unfold revKey
          simp
      · intro r hr hk
        rcases List.mem_append.mp hr with hin | hsing
        · have := List.find?_eq_none.mp hf r hin
          exact absurd hk this
        · rw [List.mem_singleton] at hsing
          subst hsing
          exact aggUpdate_idem _ _

/-- An aggregation upsert leaves every other settled key settled. -/
theorem upsert_keyGood_preserved (db : List Sale) (cid cid' : ℕ)
    (start start' : Date) (table : List Revenue)
    (h : keyGood db cid' start' table) :
    keyGood db cid' start' (upsertRevenue db cid start (periodEnd start) table) := by
  by_cases heq : cid = cid' ∧ start = start'
  · rw [← heq.1, ← heq.2]
    exact upsert_keyGood db cid start table
  · obtain ⟨⟨r0, hr0mem, hr0key⟩, hall⟩ := h
    unfold upsertRevenue
    cases hf : table.find? (revKey cid start) with
    | some r1 =>
        constructor
        · refine ⟨r0, ?_, hr0key⟩
          refine List.mem_map.mpr ⟨r0, hr0mem, ?_⟩
          by_cases hk0 : revKey cid start r0 = true
          · exact absurd (revKey_inj hk0 hr0key) heq
          · rw [if_neg hk0]
        · intro r hr hk
          obtain ⟨r2, hr2mem, hr2⟩ := List.mem_map.mp hr
          by_cases hk2 : revKey cid start r2 = true
          · rw [if_pos hk2] at hr2
            rw [← hr2, revKey_aggUpdate] at hk
            exact absurd (revKey_inj hk2 hk) heq
          · rw [if_neg hk2] at hr2
            rw [← hr2] at hk ⊢
            exact hall r2 hr2mem hk
    | none =>
        constructor
        · exact ⟨r0, List.mem_append.mpr (Or.inl hr0mem), hr0key⟩
        · intro r hr hk
          rcases List.mem_append.mp hr with hin | hsing
          · exact hall r hin hk
          · rw [List.mem_singleton] at hsing
            subst hsing
            rw [revKey_aggUpdate] at hk
            unfold revKey at hk
            simp only [Bool.and_eq_true, beq_iff_eq] at hk
            exact absurd ⟨hk.1.1, hk.2⟩ heq

/-- On a settled key the aggregation upsert is the identity. -/
theorem upsert_stable (db : List Sale) (cid : ℕ) (start : Date)
    (table : List Revenue) (h : keyGood db cid start table) :
    upsertRevenue db cid start (periodEnd start) table = table := by
  obtain ⟨⟨r0, hr0mem, hr0key⟩, hall⟩ := h
  unfold upsertRevenue
  cases hf : table.find? (revKey cid start) with
  | none =>
      rw [List.find?_eq_none] at hf
      exact absurd hr0key (hf r0 hr0mem)
  | some r1 =>
      have hid : ∀ r ∈ table,
          (if revKey cid start r
            then aggUpdate (periodSalesList db cid start (periodEnd start)) r
            else r) = r := by
        intro r hr
        by_cases hk : revKey cid start r = true
        · rw [if_pos hk]
          exact hall r hr hk
        · rw [if_neg hk]
      calc table.map _ = table.map id := List.map_congr_left (by simpa using hid)
      _ = table := List.map_id table

/-- A completed bulk run visited the customer of every listed Sale. -/
theorem bulkGo_ok_customers (db : List Sale) :
    ∀ (L : List Sale) (table : List Revenue) (processed : List (ℕ × Date))
      (out : List Revenue), bulkGo db L table processed = .ok out →
      ∀ s ∈ L, s.customer.isSome := by
  intro L
  induction L with
  | nil =>
      intro table processed out _ s hs
      cases hs
  | cons s0 rest ih =>
      intro table processed out h s hs
      rw [bulkGo] at h
      cases hc : s0.customer with
      | none =>
          rw [hc] at h
          cases h
      | some cid =>
          rw [hc] at h
          dsimp only at h
          rcases List.mem_cons.mp hs with heq | hrest
          · subst heq
            rw [hc]
            rfl
          · by_cases hmem : (cid, periodStart s0.sale_date) ∈ processed
            · rw [if_pos hmem] at h
              exact ih table processed out h s hrest
            · rw [if_neg hmem] at h
              exact ih _ _ out h s hrest

/-- Invariant of the bulk loop: settled keys stay settled, and afterwards
the key of every listed Sale is settled. -/
theorem bulkGo_keyGood (db : List Sale) :
    ∀ (L : List Sale) (table : List Revenue) (processed : List (ℕ × Date))
      (out : List Revenue), bulkGo db L table processed = .ok out →
      (∀ p ∈ processed, keyGood db p.1 p.2 table) →
      (∀ p ∈ processed, keyGood db p.1 p.2 out) ∧
      (∀ s ∈ L, ∀ cid, s.customer = some cid →
        keyGood db cid (periodStart s.sale_date) out) := by
  intro L
  induction L with
  | nil =>
      intro table processed out h hpre
      rw [bulkGo] at h
      cases h
      refine ⟨hpre, ?_⟩
      intro s hs
      cases hs
  | cons s0 rest ih =>
      intro table processed out h hpre
      rw [bulkGo] at h
      cases hc : s0.customer with
      | none =>
          rw [hc] at h
          cases h
      | some cid =>
          rw [hc] at h
          dsimp only at h
          by_cases hmem : (cid, periodStart s0.sale_date) ∈ processed
          · rw [if_pos hmem] at h
            obtain ⟨hA, hB⟩ := ih table processed out h hpre
            refine ⟨hA, ?_⟩
            intro s hs cid' hcid'
            rcases List.mem_cons.mp hs with hseq | hrest
            · subst hseq
              rw [hc] at hcid'
              cases hcid'
              exact hA (cid, periodStart s.sale_date) hmem
            · exact hB s hrest cid' hcid'
          · rw [if_neg hmem] at h
            have hpre' : ∀ p ∈ (cid, periodStart s0.sale_date) :: processed,
                keyGood db p.1 p.2
                  (upsertRevenue db cid (periodStart s0.sale_date)
                    (periodEnd s0.sale_date) table) := by
              intro p hp
              rw [← periodEnd_periodStart s0.sale_date]
              rcases List.mem_cons.mp hp with hpeq | hpin
              · subst hpeq
                exact upsert_keyGood db cid (periodStart s0.sale_date) table
              · exact upsert_keyGood_preserved db cid p.1
                  (periodStart s0.sale_date) p.2 table (hpre p hpin)
            obtain ⟨hA, hB⟩ := ih _ _ out h hpre'
            refine ⟨?_, ?_⟩
            · intro p hp
              exact hA p (List.mem_cons_of_mem _ hp)
            · intro s hs cid' hcid'
              rcases List.mem_cons.mp hs with hseq | hrest
              · subst hseq
                rw [hc] at hcid'
                cases hcid'
                exact hA (cid, periodStart s.sale_date) (List.mem_cons_self _ _)
              · exact hB s hrest cid' hcid'

/-- If every listed Sale has a customer and every listed key is already
settled, the bulk loop succeeds and writes nothing. -/
theorem bulkGo_stable (db : List Sale) :
    ∀ (L : List Sale) (table : List Revenue) (processed : List (ℕ × Date)),
      (∀ s ∈ L, s.customer.isSome) →
      (∀ s ∈ L, ∀ cid, s.customer = some cid →
        keyGood db cid (periodStart s.sale_date) table) →
      bulkGo db L table processed = .ok table := by
  intro L
  induction L with
  | nil =>
      intro table processed _ _
      rw [bulkGo]
  | cons s0 rest ih =>
      intro table processed hsome hgood
      rw [bulkGo]
      cases hc : s0.customer with
      | none =>
          have := hsome s0 (List.mem_cons_self _ _)
          rw [hc] at this
          cases this
      | some cid =>
          dsimp only
          by_cases hmem : (cid, periodStart s0.sale_date) ∈ processed
          · rw [if_pos hmem]
            exact ih table processed
              (fun s hs => hsome s (List.mem_cons_of_mem _ hs))
              (fun s hs => hgood s (List.mem_cons_of_mem _ hs))
          · rw [if_neg hmem]
            have hstab : upsertRevenue db cid (periodStart s0.sale_date)
                (periodEnd s0.sale_date) table = table := by
              rw [← periodEnd_periodStart s0.sale_date]
              exact upsert_stable db cid (periodStart s0.sale_date) table
                (hgood s0 (List.mem_cons_self _ _) cid hc)
            rw [hstab]
            exact ih table _
              (fun s hs => hsome s (List.mem_cons_of_mem _ hs))
              (fun s hs => hgood s (List.mem_cons_of_mem _ hs))

/-- **C5**.  The bulk revenue aggregation is idempotent: if a run over the
Sale table `db` turns the Revenue table `table` into `table1`, a second run
on the unchanged Sale data maps `table1` to exactly `table1` — every
Revenue row (customer, frequency, start_date, end_date and all four
totals) is identical after the second run. -/
theorem C5_bulk_idempotent (db : List Sale) (table table1 : List Revenue)
    (h : bulkRun db table = .ok table1) :
    bulkRun db table1 = .ok table1 := by
  unfold bulkRun at h ⊢
  have hsome := bulkGo_ok_customers db _ table [] table1 h
  have hgood := bulkGo_keyGood db _ table [] table1 h
    (fun p hp => absurd hp (List.not_mem_nil p))
  exact bulkGo_stable db _ table1 [] hsome
    (fun s hs cid hcid => hgood.2 s hs cid hcid)

/-- A one-Sale database for the C5 witness. -/
def c5_db : List Sale := [mkSale (some 1) ⟨2025, 10, 3⟩ .confirmed 100 5 2]

/-- The Revenue table produced by the first bulk run on an empty table. -/
def c5_t1 : List Revenue := ((bulkRun c5_db []).toOption).getD []

/-- Witness for C5: on the concrete one-Sale database the first run yields
one Revenue row and the second run reproduces it exactly. -/
theorem C5_witness : bulkRun c5_db c5_t1 = .ok c5_t1 ∧ c5_t1.length = 1 :=
  ⟨C5_bulk_idempotent c5_db [] c5_t1 rfl, rfl⟩



